import Mathlib

/-!
Verification of the motor position-control and limit-enforcement logic of the
AbloCAM repository (files `xeryon.py`, `navitar.py`, `ablolib.py`).

The embedding keeps the structure of the Python source:

* `ablolib.DynVar.set(v)` stores `v` and then synchronously emits its signal;
  for a `Motor` the `DPOS` signal is connected to `Motor.__setDPOS`, which may
  itself call `DPOS.set` again on a corrected value (the source comments
  "note that this function is called again when DPOS.set() is called").
  One caller-level `DPOS.set(v)` hence runs a recursive cascade which we
  model with an explicit fuel parameter; `none` means the cascade has not
  terminated within the given fuel.
* Positions and limits are rationals: the Python code only adds, subtracts
  and compares positions, so exact rational arithmetic is faithful.
* Hardware writes (`self.axis.setDPOS(...)`) are collected in a list.
-/

namespace AbloCAM

/-- An axis as the `Motor` code sees it: the stage type flag
`self.axis.stage.isLineair` and the travel limits `self.limits`.  -/
structure Axis where
  isLineair : Bool
  lowLimit : ℚ
  highLimit : ℚ
deriving DecidableEq

/-- One caller-level `DPOS.set(v)` of `xeryon.Motor` (ablolib `DynVar.set`
followed by the connected slot `Motor.__setDPOS`, xeryon.py lines 361-378).
`DynVar.set` stores the value and emits; `__setDPOS` then either corrects the
stored value by calling `DPOS.set` again (clamp to the limit for a linear
stage, shift by 360 for a rotational stage) or, when the value is within the
limits, writes it to the encoder via `self.axis.setDPOS`.  The result is the
finally stored `DPOS` value together with the list of hardware writes issued
during the cascade; `none` means the fuel was exhausted before the recursion
reached an in-range value.  `navitar.Motor.__setDPOS` (navitar.py lines
159-170) is the `isLineair = true` case of the same definition.  -/
def dposSet (a : Axis) : Nat → ℚ → Option (ℚ × List ℚ)
  | 0, _ => none
  | n + 1, v =>
    if v < a.lowLimit then
      if a.isLineair then dposSet a n a.lowLimit else dposSet a n (v + 360)
    else if v > a.highLimit then
      if a.isLineair then dposSet a n a.highLimit else dposSet a n (v - 360)
    else
      some (v, [v])

/-- `Motor.step` (xeryon.py lines 344-356, navitar.py lines 146-157): add the
given step (or the stored `stepSize` when the argument is omitted) to the
current `DPOS` and set the sum through `DPOS.set`.  -/
def step (a : Axis) (fuel : Nat) (dpos stepSize : ℚ) (delta : Option ℚ) :
    Option (ℚ × List ℚ) :=
  dposSet a fuel (dpos + delta.getD stepSize)

/-- Modelled from the spec: `clamp(v, lo, hi)` as the specification describes
it for linear axes (`lo` if `v < lo`, `hi` if `v > hi`, otherwise `v`).
Used to compare the source behaviour against the specified clamp.  -/
def clampSpec (v lo hi : ℚ) : ℚ :=
  if v < lo then lo else if v > hi then hi else v

/-- Helper: on a linear axis with ordered limits, a `DPOS.set` cascade
terminates within fuel 2 and stores the clamped value, writing exactly that
value to the hardware.  -/
lemma dposSet_linear_eq_clamp (a : Axis) (hlin : a.isLineair = true)
    (hord : a.lowLimit ≤ a.highLimit) (v : ℚ) :
    dposSet a 2 v =
      some (clampSpec v a.lowLimit a.highLimit,
            [clampSpec v a.lowLimit a.highLimit]) := by
  have hns : ¬ a.highLimit < a.lowLimit := not_lt.mpr hord
  by_cases h1 : v < a.lowLimit
  · simp [dposSet, clampSpec, hlin, h1, lt_irrefl, hns]
  · by_cases h2 : v > a.highLimit
    · simp [dposSet, clampSpec, hlin, h1, h2, lt_irrefl, hns]
    · simp [dposSet, clampSpec, h1, h2]

/-- C1: for every linear axis with ordered limits and every requested
position `v`, the `DPOS.set(v)` cascade stores exactly
`clamp(v, lowLimit, highLimit)` and writes that value to the hardware.  -/
theorem setDPOS_linear_clamps (a : Axis) (hlin : a.isLineair = true)
    (hord : a.lowLimit ≤ a.highLimit) (v : ℚ) :
    dposSet a 2 v =
      some (clampSpec v a.lowLimit a.highLimit,
            [clampSpec v a.lowLimit a.highLimit]) :=
  dposSet_linear_eq_clamp a hlin hord v

/-- C1 witness: the spec scenario, limits `[-5, 5]`: requesting `7` stores
`5` and requesting `-10` stores `-5`.  -/
theorem setDPOS_linear_clamps_witness :
    dposSet ⟨true, -5, 5⟩ 2 7 = some (5, [5]) ∧
    dposSet ⟨true, -5, 5⟩ 2 (-10) = some (-5, [-5]) := by
  have h1 := setDPOS_linear_clamps ⟨true, -5, 5⟩ rfl (by norm_num) 7
  have h2 := setDPOS_linear_clamps ⟨true, -5, 5⟩ rfl (by norm_num) (-10)
  norm_num [clampSpec] at h1 h2
  exact ⟨h1, h2⟩

/-- C2: for every rotational axis whose limits span exactly one revolution
(the program gives every rotational axis the limits `[0, 360]`, xeryon.py
lines 223-224), a request `v` within one revolution of the limits is stored
as `v + 360` (when `v < lowLimit`), `v - 360` (when `v > highLimit`) or `v`
itself, and the stored value lies within the limits.  -/
theorem setDPOS_rotary_wraps (a : Axis) (hlin : a.isLineair = false)
    (hspan : a.highLimit = a.lowLimit + 360) (v : ℚ)
    (hlo : a.lowLimit - 360 ≤ v) (hhi : v ≤ a.highLimit + 360) :
    dposSet a 3 v =
      some (if v < a.lowLimit then v + 360
            else if v > a.highLimit then v - 360 else v,
            [if v < a.lowLimit then v + 360
             else if v > a.highLimit then v - 360 else v]) ∧
    a.lowLimit ≤ (if v < a.lowLimit then v + 360
                  else if v > a.highLimit then v - 360 else v) ∧
    (if v < a.lowLimit then v + 360
     else if v > a.highLimit then v - 360 else v) ≤ a.highLimit := by
  by_cases h1 : v < a.lowLimit
  · have hv1 : ¬ v + 360 < a.lowLimit := by linarith
    have hv2 : ¬ v + 360 > a.highLimit := by push_neg; linarith
    refine ⟨?_, ?_, ?_⟩
    · simp [dposSet, hlin, h1, hv1, hv2]
    · simp only [if_pos h1]; linarith
    · simp only [if_pos h1]; linarith
  · by_cases h2 : v > a.highLimit
    · have hv1 : ¬ v - 360 < a.lowLimit := by push_neg; linarith
      have hv2 : ¬ v - 360 > a.highLimit := by push_neg; linarith
      refine ⟨?_, ?_, ?_⟩
      · simp [dposSet, hlin, h1, h2, hv1, hv2]
      · simp only [if_neg h1, if_pos h2]; linarith
      · simp only [if_neg h1, if_pos h2]; linarith
    · refine ⟨?_, ?_, ?_⟩
      · simp [dposSet, h1, h2]
      · simp only [if_neg h1, if_neg h2]; linarith
      · simp only [if_neg h1, if_neg h2]; linarith

/-- C2 witness: the spec scenario, rotational limits `[0, 360]`: requesting
`370` stores `10` and requesting `-5` stores `355`.  -/
theorem setDPOS_rotary_wraps_witness :
    dposSet ⟨false, 0, 360⟩ 3 370 = some (10, [10]) ∧
    dposSet ⟨false, 0, 360⟩ 3 (-5) = some (355, [355]) := by
  have h1 := setDPOS_rotary_wraps ⟨false, 0, 360⟩ rfl (by norm_num) 370
    (by norm_num) (by norm_num)
  have h2 := setDPOS_rotary_wraps ⟨false, 0, 360⟩ rfl (by norm_num) (-5)
    (by norm_num) (by norm_num)
  norm_num at h1 h2
  exact ⟨h1, h2⟩

/-- C3 counterexample: rotational axis with limits `[0, 360]` and the request
`800`, which is more than one full revolution above the high limit.  The
claim predicts that a single call leaves the stored value at
`800 - 360 = 440`, still outside the limits; but because `DynVar.set`
re-invokes the connected `__setDPOS` slot synchronously, the correction
recurses inside the single call and the stored value is `80`, inside the
limits.  -/
theorem setDPOS_rotary_single_wrap_counterexample :
    dposSet ⟨false, 0, 360⟩ 4 800 = some (80, [80]) ∧
    (80 : ℚ) ≠ 800 - 360 ∧ (0 : ℚ) ≤ 80 ∧ (80 : ℚ) ≤ 360 := by
  refine ⟨?_, by norm_num, by norm_num, by norm_num⟩
  norm_num [dposSet]

/-- Helper: on a rotational axis spanning one revolution, a `DPOS.set`
cascade started anywhere within `n` revolutions of the limits terminates
within fuel `n + 1` and stores an in-range value.  -/
lemma dposSet_rotary_aux (a : Axis) (hlin : a.isLineair = false)
    (hspan : a.highLimit = a.lowLimit + 360) :
    ∀ (n : Nat) (v : ℚ), a.lowLimit - n * 360 ≤ v → v ≤ a.highLimit + n * 360 →
      ∃ r, dposSet a (n + 1) v = some (r, [r]) ∧
        a.lowLimit ≤ r ∧ r ≤ a.highLimit := by
  intro n
  induction n with
  | zero =>
    intro v h1 h2
    refine ⟨v, ?_, by push_cast at h1; linarith, by push_cast at h2; linarith⟩
    have hv1 : ¬ v < a.lowLimit := by push_neg; push_cast at h1; linarith
    have hv2 : ¬ v > a.highLimit := by push_neg; push_cast at h2; linarith
    simp [dposSet, hv1, hv2]
  | succ k ih =>
    intro v h1 h2
    have hk : (0 : ℚ) ≤ (k : ℚ) := Nat.cast_nonneg k
    by_cases hv1 : v < a.lowLimit
    · have hb1 : a.lowLimit - k * 360 ≤ v + 360 := by push_cast at h1 ⊢; linarith
      have hb2 : v + 360 ≤ a.highLimit + k * 360 := by
        nlinarith
      obtain ⟨r, hr, hr1, hr2⟩ := ih (v + 360) hb1 hb2
      refine ⟨r, ?_, hr1, hr2⟩
      calc dposSet a (k + 1 + 1) v = dposSet a (k + 1) (v + 360) := by
            simp [dposSet, hv1, hlin]
        _ = some (r, [r]) := hr
    · by_cases hv2 : v > a.highLimit
      · have hb1 : a.lowLimit - k * 360 ≤ v - 360 := by
          nlinarith
        have hb2 : v - 360 ≤ a.highLimit + k * 360 := by push_cast at h2; linarith
        obtain ⟨r, hr, hr1, hr2⟩ := ih (v - 360) hb1 hb2
        refine ⟨r, ?_, hr1, hr2⟩
        calc dposSet a (k + 1 + 1) v = dposSet a (k + 1) (v - 360) := by
              simp [dposSet, hv1, hv2, hlin]
          _ = some (r, [r]) := hr
      · refine ⟨v, ?_, not_lt.mp hv1, not_lt.mp hv2⟩
        simp [dposSet, hv1, hv2]

/-- C3 amended: on a rotational axis spanning one revolution, one call to
`DPOS.set(v)` applies the `± 360` correction repeatedly (the setter re-runs
on each corrected value), so for every `v` — including values more than one
full revolution out of range — the cascade terminates with a stored value
inside `[lowLimit, highLimit]`; no second caller-level call is needed.  -/
theorem setDPOS_rotary_recursive_wrap (a : Axis) (hlin : a.isLineair = false)
    (hspan : a.highLimit = a.lowLimit + 360) (v : ℚ) :
    ∃ (fuel : Nat) (r : ℚ), dposSet a fuel v = some (r, [r]) ∧
      a.lowLimit ≤ r ∧ r ≤ a.highLimit := by
  obtain ⟨k1, hk1⟩ := exists_nat_ge ((a.lowLimit - v) / 360)
  obtain ⟨k2, hk2⟩ := exists_nat_ge ((v - a.highLimit) / 360)
  have h360 : (0 : ℚ) < 360 := by norm_num
  have hc1 : ((k1 : ℚ)) ≤ ((max k1 k2 : Nat) : ℚ) :=
    Nat.cast_le.mpr (le_max_left k1 k2)
  have hc2 : ((k2 : ℚ)) ≤ ((max k1 k2 : Nat) : ℚ) :=
    Nat.cast_le.mpr (le_max_right k1 k2)
  have hb1 : a.lowLimit - (max k1 k2 : Nat) * 360 ≤ v := by
    have := (div_le_iff₀ h360).mp hk1
    nlinarith
  have hb2 : v ≤ a.highLimit + (max k1 k2 : Nat) * 360 := by
    have := (div_le_iff₀ h360).mp hk2
    nlinarith
  obtain ⟨r, hr, hr1, hr2⟩ := dposSet_rotary_aux a hlin hspan (max k1 k2) v hb1 hb2
  exact ⟨max k1 k2 + 1, r, hr, hr1, hr2⟩

/-- C3 amended witness: the counterexample input `800` on limits `[0, 360]`
is brought into range within a single call.  -/
theorem setDPOS_rotary_recursive_wrap_witness :
    ∃ (fuel : Nat) (r : ℚ), dposSet ⟨false, 0, 360⟩ fuel 800 = some (r, [r]) ∧
      (0 : ℚ) ≤ r ∧ r ≤ 360 :=
  setDPOS_rotary_recursive_wrap ⟨false, 0, 360⟩ rfl (by norm_num) 800

/-- C4: normalization is idempotent — on any axis, setting a value that is
already within the limits stores it unchanged, and the only effect of the
cascade is the single hardware write of that same value.  -/
theorem setDPOS_idempotent (a : Axis) (v : ℚ)
    (h1 : a.lowLimit ≤ v) (h2 : v ≤ a.highLimit) :
    dposSet a 1 v = some (v, [v]) := by
  have hv1 : ¬ v < a.lowLimit := not_lt.mpr h1
  have hv2 : ¬ v > a.highLimit := not_lt.mpr h2
  simp [dposSet, hv1, hv2]

/-- C4 witness: on the linear axis with limits `[-5, 5]`, re-setting the
in-range value `3` stores `3` and writes `3` to the hardware.  -/
theorem setDPOS_idempotent_witness :
    dposSet ⟨true, -5, 5⟩ 1 3 = some (3, [3]) :=
  setDPOS_idempotent ⟨true, -5, 5⟩ 3 (by norm_num) (by norm_num)

/-- C5: `step(delta)` sets the desired position through the same `DPOS.set`
normalization applied to `previous + delta`; with the argument omitted the
stored `stepSize` is used; and on a linear axis with ordered limits the
result is the clamp of the sum.  -/
theorem step_adds_and_normalizes (a : Axis) (hlin : a.isLineair = true)
    (hord : a.lowLimit ≤ a.highLimit) (fuel : Nat) (dpos stepSize : ℚ)
    (delta : Option ℚ) :
    step a fuel dpos stepSize delta = dposSet a fuel (dpos + delta.getD stepSize) ∧
    step a fuel dpos stepSize none = dposSet a fuel (dpos + stepSize) ∧
    step a 2 dpos stepSize delta =
      some (clampSpec (dpos + delta.getD stepSize) a.lowLimit a.highLimit,
            [clampSpec (dpos + delta.getD stepSize) a.lowLimit a.highLimit]) :=
  ⟨rfl, rfl, dposSet_linear_eq_clamp a hlin hord (dpos + delta.getD stepSize)⟩

/-- C5 witness: the spec scenario — linear axis with limits `[-5, 5]`,
`desiredPosition = 4`, `step(1.5)` requests `5.5` which is clamped to `5`.  -/
theorem step_adds_and_normalizes_witness :
    step ⟨true, -5, 5⟩ 2 4 1 (some (3 / 2)) = some (5, [5]) := by
  have h := (step_adds_and_normalizes ⟨true, -5, 5⟩ rfl (by norm_num) 2 4 1
    (some (3 / 2))).2.2
  norm_num [clampSpec] at h
  exact h

/-! ## Status polling and lifecycle (`Motor.updateData`, `Motor.disconnect`,
`Motor.findIndex`, `Motor.connect`, `Motor.__init__`, `get_serial_port`) -/

/-- The five LED status channels of `LED_signals` (xeryon.py lines 75-90). -/
inductive Category
  | connectedC
  | findIndexC
  | movingC
  | llimC
  | hlimC
deriving DecidableEq

/-- An observable emission of the `Motor`: a LED signal carrying the on/off
flag, colour and tooltip, the `EPOS` `DynVar` signal, or the `stepSize`
`DynVar` signal re-emitted at the end of `connect`.  -/
inductive Emit
  | led (cat : Category) (flag : Bool) (color : String) (tip : String)
  | eposSignal (v : ℚ)
  | stepSizeSignal (v : ℚ)
deriving DecidableEq

/-- The channel of an emission, `none` for the `DynVar` signals.  -/
def emitCat : Emit → Option Category
  | .led c _ _ _ => some c
  | .eposSignal _ => none
  | .stepSizeSignal _ => none

/-- The previous-poll trackers of `Motor` (xeryon.py lines 157-161), used by
`updateData` for change detection.  `none` models Python `None`.  -/
structure PollState where
  isEncoderError_prev : Option Bool
  isEncoderValid_prev : Option Bool
  EPOS_prev : Option ℚ
deriving DecidableEq

/-- One hardware status read, i.e. the values the Xeryon library reports to
`updateData` during a single poll: `getData("EPOS")` already converted to the
configured units, plus the boolean status queries.  -/
structure Readings where
  epos : ℚ
  encoderError : Bool
  encoderValid : Bool
  searchingIndex : Bool
  positionReached : Bool
  atLeftEnd : Bool
  atRightEnd : Bool
deriving DecidableEq, Inhabited

/-- `round(x*1000)/1000` of xeryon.py line 291: rounding the position reading
to three decimal places.  -/
def round3 (q : ℚ) : ℚ :=
  ((round (q * 1000) : ℤ) : ℚ) / 1000

/-- The `EPOS` section of `updateData` (xeryon.py lines 289-294): round the
reading, compare with `EPOS_prev`, and emit `EPOS.set` only on change.
Returns the new `EPOS_prev` and the emissions.  -/
def eposStep (prev : Option ℚ) (raw : ℚ) : Option ℚ × List Emit :=
  let e := round3 raw
  if some e ≠ prev then (some e, [Emit.eposSignal (round3 e)])
  else (prev, [])

/-- The encoder-error section of `updateData` (xeryon.py lines 296-302):
compare with `isEncoderError_prev` and emit the connection LED only on
change.  -/
def encErrStep (prev : Option Bool) (err : Bool) : Option Bool × List Emit :=
  if some err ≠ prev then
    (some err,
     if err then [Emit.led .connectedC true "red" "Encoder error"]
     else [Emit.led .connectedC true "green" "Connected"])
  else (prev, [])

/-- The find-index LED section of `updateData` (xeryon.py lines 304-309):
emitted on every poll, with no previous-value comparison.  -/
def findIndexLeds (r : Readings) : List Emit :=
  if r.encoderValid then [Emit.led .findIndexC true "green" "Encoder valid"]
  else if r.searchingIndex then
    [Emit.led .findIndexC true "orange" "Searching index"]
  else if !r.encoderValid then
    [Emit.led .findIndexC false "green" "Index not found"]
  else []

/-- The moving LED section of `updateData` (xeryon.py lines 311-320):
emitted on every poll, with no previous-value comparison.  -/
def movingLeds (r : Readings) : List Emit :=
  if r.encoderValid then
    if r.positionReached then [Emit.led .movingC true "green" "Ready"]
    else [Emit.led .movingC true "orange" "Moving"]
  else
    if r.positionReached then
      [Emit.led .movingC false "green" "Unknown position"]
    else [Emit.led .movingC true "orange" "Moving"]

/-- The limit LED section of `updateData` (xeryon.py lines 322-335), present
only for linear stages: emitted on every poll, with no previous-value
comparison.  -/
def limLeds (a : Axis) (dpos : ℚ) (r : Readings) : List Emit :=
  if a.isLineair then
    (if r.atLeftEnd then [Emit.led .llimC true "red" "Low limit reached!"]
     else if dpos ≤ a.lowLimit then
       [Emit.led .llimC true "orange" "Trying to set lower limit!"]
     else [Emit.led .llimC false "red" "Low limit OK"]) ++
    (if r.atRightEnd then [Emit.led .hlimC true "red" "High limit reached!"]
     else if dpos ≥ a.highLimit then
       [Emit.led .hlimC true "orange" "Trying to set higher limit!"]
     else [Emit.led .hlimC false "red" "High limit OK"])
  else []

/-- The disconnected branch of `updateData` (xeryon.py lines 337-342): one
"Disconnected" emission on each of the five LED channels.  -/
def disconnectedLeds : List Emit :=
  [Emit.led .connectedC false "green" "Disconnected",
   Emit.led .findIndexC false "green" "Disconnected",
   Emit.led .movingC false "green" "Disconnected",
   Emit.led .llimC false "red" "Disconnected",
   Emit.led .hlimC false "red" "Disconnected"]

/-- `Motor.updateData` (xeryon.py lines 284-342): when connected, read the
hardware and run the five status sections; otherwise emit the disconnected
burst and leave the trackers unchanged.  The readings argument is only
consulted on the connected branch (the source only talks to the hardware
there).  -/
def updateData (a : Axis) (connected : Bool) (dpos : ℚ) (st : PollState)
    (r : Readings) : PollState × List Emit :=
  if connected then
    (⟨(encErrStep st.isEncoderError_prev r.encoderError).1,
      st.isEncoderValid_prev,
      (eposStep st.EPOS_prev r.epos).1⟩,
     (eposStep st.EPOS_prev r.epos).2 ++
       (encErrStep st.isEncoderError_prev r.encoderError).2 ++
       findIndexLeds r ++ movingLeds r ++ limLeds a dpos r)
  else (st, disconnectedLeds)

/-- The mutable state of one `Motor` object that the lifecycle claims are
about (xeryon.py `Motor.__init__`, lines 137-192).  `isLineair` mirrors
`self.axis.stage.isLineair`, known after `connect`; `hasController` mirrors
`self.controller is not None`.  -/
structure MotorState where
  connected : Bool
  indexFound : Bool
  timerActive : Bool
  hasController : Bool
  serial : Option String
  axis_letter : String
  isLineair : Bool
  limits : ℚ × ℚ
  dpos : ℚ
  speed : ℚ
  stepSize : ℚ
  poll : PollState
deriving DecidableEq

/-- The axis view of a motor state, as consumed by `__setDPOS` and
`updateData`.  -/
def MotorState.toAxis (m : MotorState) : Axis :=
  ⟨m.isLineair, m.limits.1, m.limits.2⟩

/-- Commands sent to the Xeryon controller object.  -/
inductive HwCmd
  | stop
deriving DecidableEq

/-- `Motor.disconnect` (xeryon.py lines 239-251): stop the controller when
one exists, clear `connected`, stop the timer, clear `indexFound`, run
`updateData` (which, now disconnected, emits the five-channel burst), and
reset the error/valid trackers.  -/
def disconnect (m : MotorState) : MotorState × List Emit × List HwCmd :=
  let hw := if m.hasController then [HwCmd.stop] else []
  let m1 := { m with connected := false, timerActive := false,
                     indexFound := false }
  let p := (updateData m1.toAxis m1.connected m1.dpos m1.poll default).1
  let es := (updateData m1.toAxis m1.connected m1.dpos m1.poll default).2
  ({ m1 with poll := { p with isEncoderError_prev := none,
                              isEncoderValid_prev := none } }, es, hw)

/-- `Motor.findIndex` (xeryon.py lines 253-263): guarded on `connected`;
when connected it resets the valid tracker, emits the orange searching LED
and starts the worker thread (returned boolean).  -/
def findIndex (m : MotorState) : MotorState × List Emit × Bool :=
  if m.connected then
    ({ m with poll := { m.poll with isEncoderValid_prev := none } },
     [Emit.led .findIndexC true "orange" "Searching index"], true)
  else (m, [], false)

/-- Error and warning messages printed by the motor code (`al.printE`,
`al.printW`); the model records which message was printed rather than the
formatted text.  -/
inductive LogMsg
  | deviceNotFound
  | motorNotConnected
  | llimNotSmallerThanHlim
deriving DecidableEq

/-- One entry of `serial.tools.list_ports.comports()`: the device node and
its serial number (which pyserial reports as possibly absent).  -/
structure SerialDevice where
  serial_number : Option String
  device : String
deriving DecidableEq

/-- `get_serial_port` (xeryon.py lines 65-73): return the device node of the
first listed port whose serial number matches, else print the
device-not-found error and return `None`.  -/
def get_serial_port (serial_number : Option String)
    (device_list : List SerialDevice) : Option String × List LogMsg :=
  match device_list.find? (fun d => d.serial_number == serial_number) with
  | some d => (some d.device, [])
  | none => (none, [LogMsg.deviceNotFound])

/-- The hardcoded axis-letter-to-serial-number table of `Motor.__getSerial`
(xeryon.py lines 380-411); letters outside the table yield `None`.  -/
def axisSerialNumber (axis_letter : String) : Option String :=
  if axis_letter = "X" then some "7583835373835180D020"
  else if axis_letter = "Y" then some "75838353738351213130"
  else if axis_letter = "Z" then some "75838353738351319090"
  else if axis_letter = "Z3" then some "9593332343335101A020"
  else if axis_letter = "R" then some "95933323433351212070"
  else none

/-- `Motor.__getSerial` (xeryon.py lines 380-411): look the serial number up
by axis letter, resolve the port, and store it on success; on failure print
the not-connected error and leave `serial` unchanged.  -/
def getSerial (m : MotorState) (device_list : List SerialDevice) :
    MotorState × List LogMsg :=
  match get_serial_port (axisSerialNumber m.axis_letter) device_list with
  | (some s, logs) => ({ m with serial := some s }, logs)
  | (none, logs) => (m, logs ++ [LogMsg.motorNotConnected])

/-- `Motor.__init__` (xeryon.py lines 137-192): a motor starts disconnected,
index not found, timer stopped, no controller, default limits `[-5, 5]`,
`DPOS = 0`, and — for a non-empty axis letter — resolves its serial port.  -/
def initMotor (axis_letter : String) (speed stepSize : ℚ)
    (device_list : List SerialDevice) : MotorState × List LogMsg :=
  let m : MotorState :=
    { connected := false
      indexFound := false
      timerActive := false
      hasController := false
      serial := none
      axis_letter := axis_letter
      isLineair := true
      limits := (-5, 5)
      dpos := 0
      speed := speed
      stepSize := stepSize
      poll := ⟨none, none, none⟩ }
  if axis_letter ≠ "" then getSerial m device_list else (m, [])

/-- What the connected Xeryon axis reports during `connect`: the stage type
and the optional `LLIM`/`HLIM` settings, already converted to millimetres
and truncated to integers as in xeryon.py lines 213-214.  -/
structure HwConfig where
  isLineair : Bool
  llim : Option ℤ
  hlim : Option ℤ
deriving DecidableEq

/-- `Motor.connect` (xeryon.py lines 194-237): resolve the serial port if
missing and return `False` without further effect when that fails;
otherwise open the controller, determine the limits (hardware-reported or
defaulted `[-5, 5]` for a linear stage, fixed `[0, 360]` plus two gray LED
emissions for a rotational stage, falling back to `[-1, 1]` with an error
print when `LLIM >= HLIM`), start the update timer, set `connected`, and
emit the green connected LED followed by the `stepSize` signal.  -/
def connect (m : MotorState) (device_list : List SerialDevice)
    (hw : HwConfig) : MotorState × List Emit × List LogMsg × Bool :=
  let res := if m.serial = none then getSerial m device_list else (m, [])
  match res.1.serial with
  | none => (res.1, [], res.2, false)
  | some _ =>
    let m2 := { res.1 with hasController := true, isLineair := hw.isLineair }
    let LLIM : ℤ := if hw.isLineair then hw.llim.getD (-5) else 0
    let HLIM : ℤ := if hw.isLineair then hw.hlim.getD 5 else 360
    let es1 : List Emit :=
      if hw.isLineair then []
      else [Emit.led .llimC false "gray" "Unlimited rotation",
            Emit.led .hlimC false "gray" "Unlimited rotation"]
    let lims : ℚ × ℚ :=
      if LLIM ≥ HLIM then (-1, 1) else ((LLIM : ℚ), (HLIM : ℚ))
    let logs2 : List LogMsg :=
      if LLIM ≥ HLIM then [LogMsg.llimNotSmallerThanHlim] else []
    ({ m2 with limits := lims, timerActive := true, connected := true },
     es1 ++ [Emit.led .connectedC true "green" "Connected",
             Emit.stepSizeSignal m2.stepSize],
     res.2 ++ logs2, true)

/-! ## Theorems about polling and lifecycle -/

/-- Helper: the `EPOS` tracker always holds the rounded current reading
after the section runs, whether or not it emitted.  -/
lemma eposStep_fst (prev : Option ℚ) (raw : ℚ) :
    (eposStep prev raw).1 = some (round3 raw) := by
  simp only [eposStep]
  split
  · rfl
  · next h => rw [not_ne_iff] at h; exact h.symm

/-- Helper: the encoder-error tracker always holds the current reading after
the section runs.  -/
lemma encErrStep_fst (prev : Option Bool) (err : Bool) :
    (encErrStep prev err).1 = some err := by
  simp only [encErrStep]
  split
  · rfl
  · next h => rw [not_ne_iff] at h; exact h.symm

/-- Helper: when the tracker already equals the rounded reading, the `EPOS`
section emits nothing.  -/
lemma eposStep_self (raw : ℚ) :
    eposStep (some (round3 raw)) raw = (some (round3 raw), []) := by
  unfold eposStep
  rw [if_neg (by simp)]

/-- Helper: when the tracker already equals the reading, the encoder-error
section emits nothing.  -/
lemma encErrStep_self (err : Bool) :
    encErrStep (some err) err = (some err, []) := by
  unfold encErrStep
  rw [if_neg (by simp)]

/-- Emissions on the channels that `updateData` dirty-checks: the `EPOS`
signal and the connection (encoder-error) LED.  -/
def onDirtyCheckedChannel : Emit → Bool
  | .eposSignal _ => true
  | .led c _ _ _ => c == Category.connectedC
  | .stepSizeSignal _ => false

/-- Helper: the find-index section never emits on a dirty-checked channel. -/
lemma findIndexLeds_not_dirty (r : Readings) :
    (findIndexLeds r).all (fun e => !(onDirtyCheckedChannel e)) = true := by
  unfold findIndexLeds
  split_ifs <;> simp [onDirtyCheckedChannel]

/-- Helper: the moving section never emits on a dirty-checked channel.  -/
lemma movingLeds_not_dirty (r : Readings) :
    (movingLeds r).all (fun e => !(onDirtyCheckedChannel e)) = true := by
  unfold movingLeds
  split_ifs <;> simp [onDirtyCheckedChannel]

/-- Helper: the limit section never emits on a dirty-checked channel.  -/
lemma limLeds_not_dirty (a : Axis) (dpos : ℚ) (r : Readings) :
    (limLeds a dpos r).all (fun e => !(onDirtyCheckedChannel e)) = true := by
  unfold limLeds
  split_ifs <;> simp [onDirtyCheckedChannel]

/-- Concrete inputs for the polling scenario: a connected linear axis with
limits `[-5, 5]`, a steady hardware reading (position `0`, no encoder error,
encoder valid, not searching, position reached, not at either end), and the
fresh trackers a `Motor` starts with.  -/
def axLin : Axis := ⟨true, -5, 5⟩

/-- The steady hardware reading used in the polling scenario.  -/
def steadyReading : Readings := ⟨0, false, true, false, true, false, false⟩

/-- The fresh trackers a `Motor` starts with (all Python `None`).  -/
def pollStart : PollState := ⟨none, none, none⟩

/-- C6 counterexample: two consecutive polls of a connected linear axis with
identical readings.  The claim predicts no emission on any unchanged
category at the second poll, but the second poll still emits on the
find-index, moving, low-limit and high-limit channels (only the `EPOS` and
encoder-error channels are dirty-checked).  -/
theorem updateData_reemits_on_steady_readings :
    (updateData axLin true 0
        (updateData axLin true 0 pollStart steadyReading).1 steadyReading).2 =
      [Emit.led .findIndexC true "green" "Encoder valid",
       Emit.led .movingC true "green" "Ready",
       Emit.led .llimC false "red" "Low limit OK",
       Emit.led .hlimC false "red" "High limit OK"] := by
  have h1 : (updateData axLin true 0 pollStart steadyReading).1 =
      ⟨some false, none, some (round3 0)⟩ := by
    simp [updateData, eposStep_fst, encErrStep_fst, pollStart, steadyReading]
  rw [h1]
  norm_num [updateData, eposStep_self, encErrStep_self, findIndexLeds,
    movingLeds, limLeds, axLin, steadyReading]

/-- C6 amended: only the position (`EPOS`) and encoder-error (connection)
categories are dirty-checked.  For those, a reading held steady across two
consecutive polls produces no second emission: every emission of the second
poll lies on one of the always-emitting channels (find-index, moving,
low-limit, high-limit).  -/
theorem updateData_dirty_checks_epos_and_encoder_error (a : Axis)
    (dpos : ℚ) (st : PollState) (r : Readings) :
    ((updateData a true dpos
        (updateData a true dpos st r).1 r).2).all
      (fun e => !(onDirtyCheckedChannel e)) = true := by
  have h1 : (updateData a true dpos st r).1 =
      ⟨some r.encoderError, st.isEncoderValid_prev, some (round3 r.epos)⟩ := by
    simp [updateData, eposStep_fst, encErrStep_fst]
  rw [h1]
  simp only [updateData, if_pos]
  simp [eposStep_self, encErrStep_self, List.all_append,
    findIndexLeds_not_dirty, movingLeds_not_dirty, limLeds_not_dirty]

/-- C7: for every motor state, `disconnect` stops the update timer, sets
`connected = false`, clears `indexFound`, resets the error/valid trackers,
emits exactly one "Disconnected" notification on each of the five LED
channels, and stops the controller exactly when one exists (the guard
`controller is not None` makes disconnecting a never-connected motor a
non-error).  -/
theorem disconnect_spec (m : MotorState) :
    (disconnect m).1.connected = false ∧
    (disconnect m).1.timerActive = false ∧
    (disconnect m).1.indexFound = false ∧
    (disconnect m).1.poll.isEncoderError_prev = none ∧
    (disconnect m).1.poll.isEncoderValid_prev = none ∧
    (disconnect m).2.1 = disconnectedLeds ∧
    disconnectedLeds.map emitCat =
      [some .connectedC, some .findIndexC, some .movingC,
       some .llimC, some .hlimC] ∧
    (disconnect m).2.2 = (if m.hasController then [HwCmd.stop] else []) := by
  refine ⟨rfl, rfl, rfl, rfl, rfl, ?_, rfl, rfl⟩
  simp [disconnect, updateData]

/-- C8: `findIndex` on a disconnected motor is a no-op: the state is
unchanged, nothing is emitted, and no worker thread is started.  -/
theorem findIndex_disconnected_noop (m : MotorState)
    (h : m.connected = false) :
    findIndex m = (m, [], false) := by
  unfold findIndex
  rw [h]
  simp

/-- A concrete never-connected motor state used by the lifecycle witnesses. -/
def motorUnconnected : MotorState :=
  ⟨false, false, false, false, none, "X", true, (-5, 5), 0, 10, 1,
   ⟨none, none, none⟩⟩

/-- C8 witness: calling `findIndex` on the concrete disconnected motor
issues no hardware call, starts no worker and changes no state.  -/
theorem findIndex_disconnected_noop_witness :
    findIndex motorUnconnected = (motorUnconnected, [], false) :=
  findIndex_disconnected_noop motorUnconnected rfl

/-- C9 counterexample: a motor whose serial port could not be resolved at
construction (axis letter "X", empty device list) and a `connect` attempt
with still no matching device.  The claim predicts a "connection failed"
status notification; the code returns `False` after only printing errors,
emitting nothing on any status channel.  -/
theorem connect_no_device_counterexample :
    (connect (initMotor "X" 10 1 []).1 [] ⟨true, none, none⟩).2.1 = [] ∧
    (connect (initMotor "X" 10 1 []).1 [] ⟨true, none, none⟩).1.connected
      = false ∧
    (connect (initMotor "X" 10 1 []).1 [] ⟨true, none, none⟩).1.timerActive
      = false ∧
    (connect (initMotor "X" 10 1 []).1 [] ⟨true, none, none⟩).2.2.2 = false ∧
    (connect (initMotor "X" 10 1 []).1 [] ⟨true, none, none⟩).2.2.1 =
      [LogMsg.deviceNotFound, LogMsg.motorNotConnected] := by
  refine ⟨?_, ?_, ?_, ?_, ?_⟩ <;> rfl

/-- C9 amended: when no serial device matches the configured serial number,
`connect` fails with the device-not-found condition: it returns `False`,
leaves the motor state completely unchanged (in particular `connected` stays
`false` and the polling timer is not started), prints the device-not-found
and motor-not-connected errors, emits no status notification, and does not
retry.  -/
theorem connect_no_device_spec (m : MotorState)
    (device_list : List SerialDevice) (hw : HwConfig)
    (hser : m.serial = none)
    (hfind : device_list.find?
      (fun d => d.serial_number == axisSerialNumber m.axis_letter) = none) :
    connect m device_list hw =
      (m, [], [LogMsg.deviceNotFound, LogMsg.motorNotConnected], false) := by
  unfold connect getSerial get_serial_port
  rw [if_pos hser, hfind]
  simp [hser]

/-- C9 amended witness: the concrete failing connect attempt of the
counterexample, through the general theorem.  -/
theorem connect_no_device_spec_witness :
    connect (initMotor "X" 10 1 []).1 [] ⟨true, none, none⟩ =
      ((initMotor "X" 10 1 []).1, [],
       [LogMsg.deviceNotFound, LogMsg.motorNotConnected], false) :=
  connect_no_device_spec (initMotor "X" 10 1 []).1 [] ⟨true, none, none⟩
    rfl rfl

/-- Helper: `__getSerial` never touches the limits.  -/
lemma getSerial_limits (m : MotorState) (device_list : List SerialDevice) :
    ((getSerial m device_list).1).limits = m.limits := by
  unfold getSerial
  rcases h : get_serial_port (axisSerialNumber m.axis_letter) device_list
    with ⟨s, logs⟩
  cases s <;> simp

/-- Helper: the serial-resolution step of `connect` never touches the
limits.  -/
lemma resolveSerial_limits (m : MotorState) (device_list : List SerialDevice) :
    (((if m.serial = none then getSerial m device_list else (m, [])).1)).limits
      = m.limits := by
  split
  · exact getSerial_limits m device_list
  · rfl

/-- Helper: every path out of `connect` leaves the limits either untouched,
at the invalid-limits fallback `[-1, 1]`, or at an integer pair reported (or
defaulted) by the hardware with the low limit strictly below the high
limit.  -/
lemma connect_limits (m : MotorState) (device_list : List SerialDevice)
    (hw : HwConfig) :
    (connect m device_list hw).1.limits = m.limits ∨
    (connect m device_list hw).1.limits = ((-1 : ℚ), (1 : ℚ)) ∨
    ∃ L H : ℤ, L < H ∧
      (connect m device_list hw).1.limits = ((L : ℚ), (H : ℚ)) := by
  simp only [connect]
  split
  · left
    exact resolveSerial_limits m device_list
  · set L : ℤ := if hw.isLineair then hw.llim.getD (-5) else 0 with hL
    set H : ℤ := if hw.isLineair then hw.hlim.getD 5 else 360 with hH
    by_cases hLH : L ≥ H
    · right; left
      simp [hLH]
    · right; right
      exact ⟨L, H, lt_of_not_ge hLH, by simp [hLH]⟩

/-- C10: the invariant `lowLimit < highLimit` holds after construction
(default limits `[-5, 5]`) and is preserved by every path out of `connect`
(failure leaves the limits untouched; a linear stage gets hardware limits or
the `[-5, 5]` defaults, falling back to `[-1, 1]` when the report is
invalid; a rotational stage gets `[0, 360]`).  -/
theorem limits_invariant (m : MotorState) (hm : m.limits.1 < m.limits.2)
    (axis_letter : String) (speed stepSize : ℚ)
    (dl dl2 : List SerialDevice) (hw : HwConfig) :
    (initMotor axis_letter speed stepSize dl).1.limits.1 <
      (initMotor axis_letter speed stepSize dl).1.limits.2 ∧
    (connect m dl2 hw).1.limits.1 < (connect m dl2 hw).1.limits.2 := by
  constructor
  · have h : (initMotor axis_letter speed stepSize dl).1.limits
        = ((-5 : ℚ), (5 : ℚ)) := by
      simp only [initMotor]
      split
      · rw [getSerial_limits]
      · rfl
    rw [h]
    norm_num
  · rcases connect_limits m dl2 hw with h | h | ⟨L, H, hLH, h⟩
    · rw [h]; exact hm
    · rw [h]; norm_num
    · rw [h]; simp only [Prod.fst, Prod.snd]; exact_mod_cast hLH

/-- A concrete motor state whose serial port has already been resolved,
used to exercise the successful branch of `connect`.  -/
def motorResolved : MotorState :=
  ⟨false, false, false, false, some "/dev/ttyACM0", "R", true, (-5, 5), 0,
   100, 10, ⟨none, none, none⟩⟩

/-- C10 witness: a fresh rotational-letter motor after construction, and a
successful rotational connect (which sets the limits `[0, 360]`) of a motor
whose port already resolved, through the general theorem.  -/
theorem limits_invariant_witness :
    (initMotor "R" 100 10 []).1.limits.1 <
      (initMotor "R" 100 10 []).1.limits.2 ∧
    (connect motorResolved [] ⟨false, none, none⟩).1.limits.1 <
      (connect motorResolved [] ⟨false, none, none⟩).1.limits.2 :=
  limits_invariant motorResolved (by norm_num [motorResolved])
    "R" 100 10 [] [] ⟨false, none, none⟩

end AbloCAM
